import Mathlib

/-!
Verification of the dis-system repository: a gateway in front of two
replicated backend services (marketplace on MongoDB, discourse on
PostgreSQL).  The backend controllers and services are embedded as pure
state transformers below; the gateway components that are described by
the documentation but whose source is not part of the tree are modelled
from the specification and marked as such.
-/

/-- An HTTP response as produced by the backend controllers: a status
code plus the optional error message of the JSON error body. -/
structure HttpResp where
  status : Nat
  error : Option String
deriving DecidableEq

/-! ## Marketplace service (src/services/marketplace) -/

/-- A marketplace item, following the mongoose schema in
src/services/marketplace/src/models/Item.js.  The id stands for the
(well-formed) Mongo ObjectId of the document. -/
structure Item where
  id : String
  name : String
  description : String
  category : String
  price : Int
  currency : String
  sellerId : String
  status : String
  isPremium : Bool
  tags : List String
deriving DecidableEq

/-- A transaction document, following
src/services/marketplace/src/models/Transaction.js. -/
structure Txn where
  itemId : String
  buyerId : String
  sellerId : String
  price : Int
  currency : String
  type : String
  status : String
deriving DecidableEq

/-- The persistent state of the marketplace service: its item and
transaction collections. -/
structure MarketState where
  items : List Item
  transactions : List Txn
deriving DecidableEq

/-- Item.findById: first item of the collection carrying the given id. -/
def findItem : List Item → String → Option Item
  | [], _ => none
  | i :: rest, iid => if i.id = iid then some i else findItem rest iid

/-- Item.findOneAndUpdate on a filter by id: replace the first document
with the given id (and only that one) by the updated document. -/
def replaceItemFirst : List Item → String → Item → List Item
  | [], _, _ => []
  | i :: rest, iid, it => if i.id = iid then it :: rest else i :: replaceItemFirst rest iid it

/-- The category enum of the item schema, also used by the controller
validation in the marketplace controller. -/
def validCategories : List String := ["asset", "innovation", "service", "knowledge"]

/-- The currency enum shared by the Item and Transaction schemas. -/
def validCurrencies : List String := ["USD", "EUR", "BTC", "GOLD"]

/-- The value a JSON request-body field of numeric intent can take in
JavaScript: absent (undefined), present but not a number, or a number. -/
inductive JsNum
  | undef
  | notNumber
  | num (n : Int)
deriving DecidableEq

/-- The whitespace trim transform of the mongoose schema (trim true on
the item name and tags), as a directly computable string function. -/
def strTrim (s : String) : String :=
  ⟨((s.data.dropWhile Char.isWhitespace).reverse.dropWhile Char.isWhitespace).reverse⟩

/-- The JavaScript idiom x || dflt on a string field: the default when
the field is absent or empty, the value otherwise. -/
def jsStrOr (v : Option String) (dflt : String) : String :=
  if v.getD "" = "" then dflt else v.getD ""

/-- The numeric value of a JavaScript body field (0 when absent or not
a number; those cases never reach a schema save in the source). -/
def jsNumValue : JsNum → Int
  | .num n => n
  | _ => 0

/-- The controller check typeof price is not number or price < 0. -/
def priceBad : JsNum → Bool
  | .num n => decide (n < 0)
  | _ => true

/-- Request body of POST /marketplace/item.  Fields that the controller
reads from req.body; a missing field is none, and the JavaScript
falsy test !x on a string field holds for none and for some "". -/
structure CreateItemBody where
  name : Option String
  description : Option String
  category : Option String
  price : JsNum
  currency : Option String
  isPremium : Option Bool
  tags : Option (List String)
deriving DecidableEq

/-- Request body of POST /marketplace/purchase. -/
structure PurchaseBody where
  itemId : Option String
deriving DecidableEq

/-- MarketplaceService.createItem: builds the document (applying the
schema defaults currency USD, status available, isPremium false,
tags []) and saves it.  The mongoose save validates the schema
(required fields, category and currency enums, price minimum); a
validation failure surfaces as a thrown error, here .error. -/
def MarketplaceService.createItem (data : CreateItemBody) (sellerId : String)
    (newId : String) (σ : MarketState) : Except String (Item × MarketState) :=
  let item : Item :=
    { id := newId
      name := strTrim (data.name.getD "")
      description := data.description.getD ""
      category := data.category.getD ""
      price := jsNumValue data.price
      currency := jsStrOr data.currency "USD"
      sellerId := sellerId
      status := "available"
      isPremium := data.isPremium.getD false
      tags := (data.tags.getD []).map strTrim }
  if item.name ≠ "" ∧ item.description ≠ "" ∧ item.category ∈ validCategories
      ∧ 0 ≤ item.price ∧ item.currency ∈ validCurrencies ∧ item.sellerId ≠ "" then
    .ok (item, { σ with items := item :: σ.items })
  else
    .error "ValidationError"

/-- MarketplaceService.purchaseItem: reads the item, rejects a purchase
by its own seller, then performs the single atomic findOneAndUpdate
that flips status available to sold, and records the completed
transaction.  The error strings are exactly those thrown by the
source. -/
def MarketplaceService.purchaseItem (itemId buyerId : String) (σ : MarketState) :
    Except String (Txn × Item × MarketState) :=
  match findItem σ.items itemId with
  | none => .error "Item not found"
  | some itemCheck =>
    if itemCheck.sellerId = buyerId then
      .error "Cannot purchase your own item"
    else if itemCheck.status = "available" then
      let sold : Item := { itemCheck with status := "sold" }
      let txn : Txn :=
        { itemId := sold.id, buyerId := buyerId, sellerId := sold.sellerId
          price := sold.price, currency := sold.currency
          type := "purchase", status := "completed" }
      .ok (txn, sold,
        { items := replaceItemFirst σ.items itemId sold
          transactions := txn :: σ.transactions })
    else
      .error "Item is not available for purchase (already sold)"

/-- MarketplaceController.getItem: 404 when no item carries the id;
a read performs no write to the stores. -/
def MarketplaceController.getItem (id : String) (σ : MarketState) :
    HttpResp × MarketState :=
  match findItem σ.items id with
  | none => (⟨404, some "Item not found"⟩, σ)
  | some _ => (⟨200, none⟩, σ)

/-- MarketplaceController.createItem: 401 without a truthy x-user-id
header, then the three body validations of the controller in order,
then the service call. -/
def MarketplaceController.createItem (userIdHeader : Option String)
    (body : CreateItemBody) (newId : String) (σ : MarketState) :
    HttpResp × MarketState :=
  if userIdHeader.getD "" = "" then
    (⟨401, some "User ID required"⟩, σ)
  else if body.name.getD "" = "" ∨ body.description.getD "" = ""
      ∨ body.category.getD "" = "" ∨ body.price = JsNum.undef then
    (⟨400, some "Missing required fields: name, description, category, price"⟩, σ)
  else if body.category.getD "" ∉ validCategories then
    (⟨400, some "Invalid category. Must be one of: asset, innovation, service, knowledge"⟩, σ)
  else if priceBad body.price then
    (⟨400, some "Price must be a non-negative number"⟩, σ)
  else
    match MarketplaceService.createItem body (userIdHeader.getD "") newId σ with
    | .ok (_, σ₂) => (⟨201, none⟩, σ₂)
    | .error _ => (⟨500, some "Failed to create item"⟩, σ)

/-- MarketplaceController.purchaseItem: 401 without a truthy header,
400 without an itemId, then the service call with its error-message
to status mapping copied verbatim from the controller. -/
def MarketplaceController.purchaseItem (userIdHeader : Option String)
    (body : PurchaseBody) (σ : MarketState) : HttpResp × MarketState :=
  if userIdHeader.getD "" = "" then
    (⟨401, some "User ID required"⟩, σ)
  else if body.itemId.getD "" = "" then
    (⟨400, some "Item ID is required"⟩, σ)
  else
    match MarketplaceService.purchaseItem (body.itemId.getD "") (userIdHeader.getD "") σ with
    | .ok (_, _, σ₂) => (⟨200, none⟩, σ₂)
    | .error msg =>
      if msg = "Item not found" then (⟨404, some msg⟩, σ)
      else if msg = "Item is not available for purchase"
          ∨ msg = "Cannot purchase your own item" then (⟨400, some msg⟩, σ)
      else (⟨500, some "Failed to purchase item"⟩, σ)

/-! ## Discourse service (src/services/discourse) -/

/-- A channel row, following the sequelize model in
src/services/discourse/src/models/Channel.js (integer primary key,
autoIncrement). -/
structure Channel where
  id : Nat
  name : String
  description : Option String
  type : String
  zone : Option String
  createdBy : String
deriving DecidableEq

/-- A post row, following the sequelize Post model. -/
structure Post where
  id : Nat
  channelId : Nat
  authorId : String
  title : Option String
  content : String
  topic : String
  isPinned : Bool
deriving DecidableEq

/-- The persistent state of the discourse service, with the
autoIncrement counters of the two tables. -/
structure DiscourseState where
  channels : List Channel
  posts : List Post
  nextChannelId : Nat
  nextPostId : Nat
deriving DecidableEq

/-- Channel.findByPk: first channel carrying the given id. -/
def findChannel : List Channel → Nat → Option Channel
  | [], _ => none
  | c :: rest, cid => if c.id = cid then some c else findChannel rest cid

/-- The channel type enum of the controller validation and the model. -/
def validTypes : List String := ["public", "private", "sovereign"]

/-- The post topic enum of the controller validation and the model. -/
def validTopics : List String := ["economic", "philosophical", "strategic", "general"]

/-- Request body of POST /discourse/channel. -/
structure CreateChannelBody where
  name : Option String
  description : Option String
  type : Option String
  zone : Option String
deriving DecidableEq

/-- Request body of POST /discourse/post.  The JavaScript falsy test
!channelId also holds for the number 0, hence the getD 0 = 0 check
in the controller below. -/
structure CreatePostBody where
  channelId : Option Nat
  content : Option String
  title : Option String
  topic : Option String
  isPinned : Option Bool
deriving DecidableEq

/-- DiscourseService.createChannel: Channel.create with the default
type public when the type field is falsy.  The sequelize not-null and
enum constraints are guaranteed by the controller, the only caller. -/
def DiscourseService.createChannel (data : CreateChannelBody) (userId : String)
    (σ : DiscourseState) : Channel × DiscourseState :=
  let ch : Channel :=
    { id := σ.nextChannelId
      name := data.name.getD ""
      description := data.description
      type := jsStrOr data.type "public"
      zone := data.zone
      createdBy := userId }
  (ch, { σ with channels := ch :: σ.channels, nextChannelId := σ.nextChannelId + 1 })

/-- DiscourseService.createPost: looks the channel up, throws
Channel not found on absence, throws Access denied to a private
channel of another creator, otherwise creates the post with the
defaults topic general and isPinned false. -/
def DiscourseService.createPost (data : CreatePostBody) (userId : String)
    (σ : DiscourseState) : Except String (Post × DiscourseState) :=
  match findChannel σ.channels (data.channelId.getD 0) with
  | none => .error "Channel not found"
  | some channel =>
    if channel.type = "private" ∧ channel.createdBy ≠ userId then
      .error "Access denied to private channel"
    else
      let post : Post :=
        { id := σ.nextPostId
          channelId := data.channelId.getD 0
          authorId := userId
          title := data.title
          content := data.content.getD ""
          topic := jsStrOr data.topic "general"
          isPinned := data.isPinned.getD false }
      .ok (post, { σ with posts := post :: σ.posts, nextPostId := σ.nextPostId + 1 })

/-- DiscourseController.getChannel: 404 when no channel carries the id;
a read performs no write to the stores. -/
def DiscourseController.getChannel (id : Nat) (σ : DiscourseState) :
    HttpResp × DiscourseState :=
  match findChannel σ.channels id with
  | none => (⟨404, some "Channel not found"⟩, σ)
  | some _ => (⟨200, none⟩, σ)

/-- DiscourseController.createChannel: 401 without a truthy x-user-id
header, 400 without a name, 400 on a present but invalid type, then
the service call. -/
def DiscourseController.createChannel (userIdHeader : Option String)
    (body : CreateChannelBody) (σ : DiscourseState) : HttpResp × DiscourseState :=
  if userIdHeader.getD "" = "" then
    (⟨401, some "User ID required"⟩, σ)
  else if body.name.getD "" = "" then
    (⟨400, some "Channel name is required"⟩, σ)
  else if body.type.getD "" ≠ "" ∧ body.type.getD "" ∉ validTypes then
    (⟨400, some "Invalid type. Must be one of: public, private, sovereign"⟩, σ)
  else
    (⟨201, none⟩, (DiscourseService.createChannel body (userIdHeader.getD "") σ).2)

/-- DiscourseController.createPost: 401 without a truthy header, 400 on
falsy channelId or content, 400 on a present but invalid topic, then
the service call with the error-message to status mapping of the
controller. -/
def DiscourseController.createPost (userIdHeader : Option String)
    (body : CreatePostBody) (σ : DiscourseState) : HttpResp × DiscourseState :=
  if userIdHeader.getD "" = "" then
    (⟨401, some "User ID required"⟩, σ)
  else if body.channelId.getD 0 = 0 ∨ body.content.getD "" = "" then
    (⟨400, some "Missing required fields: channelId, content"⟩, σ)
  else if body.topic.getD "" ≠ "" ∧ body.topic.getD "" ∉ validTopics then
    (⟨400, some "Invalid topic. Must be one of: economic, philosophical, strategic, general"⟩, σ)
  else
    match DiscourseService.createPost body (userIdHeader.getD "") σ with
    | .ok (_, σ₂) => (⟨201, none⟩, σ₂)
    | .error msg =>
      if msg = "Channel not found" then (⟨404, some msg⟩, σ)
      else if msg = "Access denied to private channel" then (⟨403, some msg⟩, σ)
      else (⟨500, some "Failed to create post"⟩, σ)

/-! ## Health endpoints (GET /status of both services) -/

/-- The JSON body of GET /status; the field named instance in the JSON
is called instanceId here because instance is reserved in Lean. -/
structure StatusBody where
  status : String
  service : String
  instanceId : String
  timestamp : String
  uptime : Nat
deriving DecidableEq

/-- The GET /status handler of the marketplace service: builds the
status body and touches no collection. -/
def marketplaceStatusHandler (instanceId nowIso : String) (uptime : Nat)
    (σ : MarketState) : StatusBody × MarketState :=
  ({ status := "healthy", service := "marketplace", instanceId := instanceId
     timestamp := nowIso, uptime := uptime }, σ)

/-- The GET /status handler of the discourse service: builds the status
body and touches no table. -/
def discourseStatusHandler (instanceId nowIso : String) (uptime : Nat)
    (σ : DiscourseState) : StatusBody × DiscourseState :=
  ({ status := "healthy", service := "discourse", instanceId := instanceId
     timestamp := nowIso, uptime := uptime }, σ)

/-! ## Gateway components

The Python gateway (gateway/app: load_balancer.py, auth.py, cache.py)
is documented by the repository but its source is not in the tree; the
three components below are modelled from the specification. -/

/-- Modelled from the spec: gateway/app/load_balancer.py is not in the
tree.  An upstream group holds the ordered replica address list, fixed
at startup, and the rotation cursor, initialized to 0. -/
structure UpstreamGroup where
  replicas : List String
  cursor : Nat
deriving DecidableEq

/-- Modelled from the spec: nextReplica returns the address at the
current cursor, then advances the cursor (cursor + 1) mod the list
length; a group with zero replicas fails fast at construction, which
the none branch stands for. -/
def nextReplica (g : UpstreamGroup) : Option (String × UpstreamGroup) :=
  if g.replicas.isEmpty then none
  else
    some (g.replicas.getD (g.cursor % g.replicas.length) "",
      { g with cursor := (g.cursor + 1) % g.replicas.length })

/-- Modelled from the spec: n consecutive selections against a group,
in order. -/
def selectN : UpstreamGroup → Nat → List String
  | _, 0 => []
  | g, n + 1 =>
    match nextReplica g with
    | none => []
    | some (addr, g₂) => addr :: selectN g₂ n

/-- Modelled from the spec: the logical content of a token issued by
gateway/app/auth.py (not in the tree): user id, issued-at and expiry
instants. -/
structure TokenPayload where
  userId : String
  issuedAt : Nat
  expiry : Nat
deriving DecidableEq

/-- Modelled from the spec: the signature a process signing with a
given secret puts on a payload, in the symbolic perfect-MAC model (the
signature determines the secret and the payload). -/
def sign (secret : Nat) (p : TokenPayload) : Nat × TokenPayload :=
  (secret, p)

/-- Modelled from the spec: a signed token as carried on the wire once
decoded: its payload plus the signature it carries. -/
structure SignedToken where
  payload : TokenPayload
  sig : Nat × TokenPayload
deriving DecidableEq

/-- Modelled from the spec: a wire token either fails decoding
(malformed) or decodes to a signed token. -/
inductive TokenWire
  | malformed (raw : String)
  | well (t : SignedToken)
deriving DecidableEq

/-- Modelled from the spec: the distinct internal failure kinds of
token verification. -/
inductive VerifyError
  | TokenExpired
  | TokenMalformed
  | SignatureInvalid
deriving DecidableEq

/-- Modelled from the spec: issue embeds the user id, the issued-at
instant and an expiry a fixed duration in the future, and signs with
the process-wide secret. -/
def issue (secret : Nat) (u : String) (now ttl : Nat) : SignedToken :=
  let p : TokenPayload := { userId := u, issuedAt := now, expiry := now + ttl }
  { payload := p, sig := sign secret p }

/-- Modelled from the spec: verify rejects malformed tokens, tampered
payloads (signature mismatch) and expired tokens distinctly, and
otherwise returns the embedded user id. -/
def verify (secret : Nat) (w : TokenWire) (now : Nat) : Except VerifyError String :=
  match w with
  | .malformed _ => .error .TokenMalformed
  | .well t =>
    if t.sig ≠ sign secret t.payload then .error .SignatureInvalid
    else if t.payload.expiry < now then .error .TokenExpired
    else .ok t.payload.userId

/-- Modelled from the spec: a response cache entry, the observed body
plus its expiry instant. -/
structure CacheEntry where
  body : String
  expiry : Nat
deriving DecidableEq

/-- Modelled from the spec: lookup of a signature in the cache store
(an association list whose most recent write for a signature comes
first). -/
def cacheLookup : List (String × CacheEntry) → String → Option CacheEntry
  | [], _ => none
  | e :: rest, sig => if e.1 = sig then some e.2 else cacheLookup rest sig

/-- Modelled from the spec: cache get misses on absence or on expiry
checked lazily at read time. -/
def cacheGet (c : List (String × CacheEntry)) (sig : String) (now : Nat) :
    Option String :=
  match cacheLookup c sig with
  | none => none
  | some e => if e.expiry < now then none else some e.body

/-- Modelled from the spec: cache put overwrites unconditionally,
storing the body with expiry now + ttl. -/
def cachePut (c : List (String × CacheEntry)) (sig body : String) (ttl now : Nat) :
    List (String × CacheEntry) :=
  (sig, ⟨body, now + ttl⟩) :: c

/-- Modelled from the spec: the router flow for a cacheable GET: on a
cache hit return the cached body, otherwise call the backend (whose
response body is the backend argument), populate the cache and return
it.  The Bool records whether the cache answered. -/
def handleCacheableGet (ttl : Nat) (c : List (String × CacheEntry)) (sig : String)
    (now : Nat) (backend : String) : String × Bool × List (String × CacheEntry) :=
  match cacheGet c sig now with
  | some b => (b, true, c)
  | none => (backend, false, cachePut c sig backend ttl now)

/-- The number of successful purchases of the given item id along a
sequence of purchase attempts (itemId, buyerId), each attempt applied
to the state left by the previous one: the serialization of concurrent
purchase attempts, each of whose decisive update is atomic. -/
def countSuccesses (iid : String) : List (String × String) → MarketState → Nat
  | [], _ => 0
  | a :: rest, σ =>
    match MarketplaceService.purchaseItem a.1 a.2 σ with
    | .ok (_, _, σ₂) => (if a.1 = iid then 1 else 0) + countSuccesses iid rest σ₂
    | .error _ => countSuccesses iid rest σ

/-- The item of the given id (if any) is not purchasable in this state:
its stored status is not available. -/
def itemNotBuyable (σ : MarketState) (iid : String) : Prop :=
  ∀ it, findItem σ.items iid = some it → it.status ≠ "available"

/-- Claim C3: requesting a marketplace item by an id matching no stored
item, or a discourse channel by an id matching no stored channel,
yields a 404 from the backend and the failed lookup creates or
modifies nothing. -/
theorem c3_get_unknown_id_404 (σm : MarketState) (σd : DiscourseState)
    (iid : String) (cid : Nat)
    (hm : findItem σm.items iid = none) (hd : findChannel σd.channels cid = none) :
    MarketplaceController.getItem iid σm = (⟨404, some "Item not found"⟩, σm)
    ∧ DiscourseController.getChannel cid σd = (⟨404, some "Channel not found"⟩, σd) := by
  constructor
  · simp [MarketplaceController.getItem, hm]
  · simp [DiscourseController.getChannel, hd]

/-- Witness for C3 at the empty stores and concrete ids. -/
theorem c3_get_unknown_id_404_witness :
    MarketplaceController.getItem "missing" ⟨[], []⟩
      = (⟨404, some "Item not found"⟩, ⟨[], []⟩)
    ∧ DiscourseController.getChannel 7 ⟨[], [], 1, 1⟩
      = (⟨404, some "Channel not found"⟩, ⟨[], [], 1, 1⟩) :=
  c3_get_unknown_id_404 ⟨[], []⟩ ⟨[], [], 1, 1⟩ "missing" 7 rfl rfl

/-- Claim C6: a purchase by the stored items own seller fails with the
message Cannot purchase your own item, mapped to a 400 response,
regardless of the items availability, and leaves the item store and
the transaction store unchanged. -/
theorem c6_purchase_own_item_400 (σ : MarketState) (iid u : String) (it : Item)
    (hu : u ≠ "") (hiid : iid ≠ "")
    (hfind : findItem σ.items iid = some it) (hown : it.sellerId = u) :
    MarketplaceController.purchaseItem (some u) ⟨some iid⟩ σ
      = (⟨400, some "Cannot purchase your own item"⟩, σ) := by
  simp [MarketplaceController.purchaseItem, hu, hiid,
    MarketplaceService.purchaseItem, hfind, hown]

/-- Witness for C6: the seller alice attempting to buy her own item,
here one whose status is already sold, so that availability clearly
plays no role. -/
theorem c6_purchase_own_item_400_witness :
    MarketplaceController.purchaseItem (some "alice") ⟨some "i1"⟩
        ⟨[⟨"i1", "n", "d", "asset", 5, "USD", "alice", "sold", false, []⟩], []⟩
      = (⟨400, some "Cannot purchase your own item"⟩,
         ⟨[⟨"i1", "n", "d", "asset", 5, "USD", "alice", "sold", false, []⟩], []⟩) :=
  c6_purchase_own_item_400 _ "i1" "alice" _ (by decide) (by decide) rfl rfl

/-- Claim C10: the GET /status endpoint of each backend service returns
the process status (service name, instance id, timestamp, uptime) and
performs no state change: the item, transaction, channel and post
stores are identical before and after the call, for every state. -/
theorem c10_status_read_only (i n : String) (u : Nat)
    (σm : MarketState) (σd : DiscourseState) :
    marketplaceStatusHandler i n u σm
      = ({ status := "healthy", service := "marketplace", instanceId := i,
           timestamp := n, uptime := u }, σm)
    ∧ discourseStatusHandler i n u σd
      = ({ status := "healthy", service := "discourse", instanceId := i,
           timestamp := n, uptime := u }, σd) :=
  ⟨rfl, rfl⟩

/-- The i-th of n consecutive selections against a nonempty group is
the replica at index (cursor + i) mod the list length. -/
theorem selectN_getD (n : Nat) :
    ∀ (g : UpstreamGroup), g.replicas ≠ [] → ∀ i, i < n →
      (selectN g n).getD i ""
        = g.replicas.getD ((g.cursor + i) % g.replicas.length) "" := by
  induction n with
  | zero => intro g _ i hi; exact absurd hi (Nat.not_lt_zero i)
  | succ n ih =>
    intro g hne i hi
    have hemp : g.replicas.isEmpty = false := by
      cases h : g.replicas with
      | nil => exact absurd h hne
      | cons a l => rfl
    have hnr : nextReplica g
        = some (g.replicas.getD (g.cursor % g.replicas.length) "",
            { g with cursor := (g.cursor + 1) % g.replicas.length }) := by
      rw [nextReplica, if_neg (by simp [hemp])]
    rw [selectN, hnr]
    cases i with
    | zero => simp
    | succ i =>
      have hrep : ({ g with cursor := (g.cursor + 1) % g.replicas.length } :
          UpstreamGroup).replicas = g.replicas := rfl
      rw [List.getD_cons_succ,
        ih { g with cursor := (g.cursor + 1) % g.replicas.length }
          (by rw [hrep]; exact hne) i (Nat.lt_of_succ_lt_succ hi)]
      show g.replicas.getD (((g.cursor + 1) % g.replicas.length + i) % g.replicas.length) ""
        = g.replicas.getD ((g.cursor + (i + 1)) % g.replicas.length) ""
      rw [Nat.mod_add_mod, Nat.add_assoc, Nat.add_comm 1 i]

/-- Claim C7: nextReplica returns the address at the current cursor and
advances the cursor modulo the replica count (so the i-th selection is
replicas[(cursor + i) mod len]), and for a three-replica group with a
fresh cursor six consecutive selections return each address exactly
twice, in rotating order. -/
theorem c7_round_robin (g : UpstreamGroup) (hne : g.replicas ≠ []) (a b c : String) :
    (∀ n i, i < n → (selectN g n).getD i ""
        = g.replicas.getD ((g.cursor + i) % g.replicas.length) "")
    ∧ selectN ⟨[a, b, c], 0⟩ 6 = [a, b, c, a, b, c]
    ∧ (a ≠ b → a ≠ c → b ≠ c →
        (selectN ⟨[a, b, c], 0⟩ 6).count a = 2
        ∧ (selectN ⟨[a, b, c], 0⟩ 6).count b = 2
        ∧ (selectN ⟨[a, b, c], 0⟩ 6).count c = 2) := by
  have hsix : selectN ⟨[a, b, c], 0⟩ 6 = [a, b, c, a, b, c] := by
    simp [selectN, nextReplica]
  refine ⟨fun n i hi => selectN_getD n g hne i hi, hsix, fun hab hac hbc => ?_⟩
  rw [hsix]
  simp [List.count_cons, List.count_nil, hab, hac, hbc,
    Ne.symm hab, Ne.symm hac, Ne.symm hbc]

/-- Witness for C7 at a concrete three-replica group. -/
theorem c7_round_robin_witness :
    selectN ⟨["r1", "r2", "r3"], 0⟩ 6 = ["r1", "r2", "r3", "r1", "r2", "r3"]
    ∧ (selectN ⟨["r1", "r2", "r3"], 0⟩ 6).count "r1" = 2 :=
  ⟨(c7_round_robin ⟨["r1", "r2", "r3"], 0⟩ (by decide) "r1" "r2" "r3").2.1,
   ((c7_round_robin ⟨["r1", "r2", "r3"], 0⟩ (by decide) "r1" "r2" "r3").2.2
      (by decide) (by decide) (by decide)).1⟩

/-- Claim C8: a token issued for user u verifies to exactly u at any
instant before its embedded expiry, fails with TokenExpired at any
instant after the expiry, and a tampered (signature-invalid) or
malformed token always fails verification. -/
theorem c8_token_round_trip (secret : Nat) (u : String) (t₀ ttl now : Nat) :
    (now < (issue secret u t₀ ttl).payload.expiry →
      verify secret (.well (issue secret u t₀ ttl)) now = .ok u)
    ∧ ((issue secret u t₀ ttl).payload.expiry < now →
      verify secret (.well (issue secret u t₀ ttl)) now = .error .TokenExpired)
    ∧ (∀ t : SignedToken, t.sig ≠ sign secret t.payload →
      verify secret (.well t) now = .error .SignatureInvalid)
    ∧ (∀ raw, verify secret (.malformed raw) now = .error .TokenMalformed) := by
  have hexpiry : (issue secret u t₀ ttl).payload.expiry = t₀ + ttl := rfl
  refine ⟨fun h => ?_, fun h => ?_, fun t ht => ?_, fun raw => rfl⟩
  · rw [hexpiry] at h
    have hexp : ¬ (t₀ + ttl < now) := by omega
    simp [verify, issue, sign, hexp]
  · rw [hexpiry] at h
    simp [verify, issue, sign, h]
  · simp [verify, ht]

/-- Witness for C8 at a concrete secret, user and clock. -/
theorem c8_token_round_trip_witness :
    verify 42 (.well (issue 42 "alice" 100 10)) 105 = .ok "alice"
    ∧ verify 42 (.well (issue 42 "alice" 100 10)) 111 = .error .TokenExpired
    ∧ verify 42 (.well ⟨⟨"alice", 100, 110⟩, (7, ⟨"alice", 100, 110⟩)⟩) 105
        = .error .SignatureInvalid
    ∧ verify 42 (.malformed "garbage") 105 = .error .TokenMalformed :=
  ⟨(c8_token_round_trip 42 "alice" 100 10 105).1 (by decide),
   (c8_token_round_trip 42 "alice" 100 10 111).2.1 (by decide),
   (c8_token_round_trip 42 "alice" 100 10 105).2.2.1 _ (by decide),
   (c8_token_round_trip 42 "alice" 100 10 105).2.2.2 "garbage"⟩

/-- Claim C9: after a cacheable GET that missed, a second identical
request within the TTL window is answered from the cache with a body
identical to the first responses body and without modifying the cache;
and a cache get misses exactly when the signature is absent or the
entry expiry has passed at read time. -/
theorem c9_cache_idempotent (ttl : Nat) (c : List (String × CacheEntry)) (sig : String)
    (t₁ t₂ : Nat) (b₁ b₂ : String)
    (hmiss : cacheGet c sig t₁ = none) (hwin : t₂ ≤ t₁ + ttl) :
    handleCacheableGet ttl (handleCacheableGet ttl c sig t₁ b₁).2.2 sig t₂ b₂
      = ((handleCacheableGet ttl c sig t₁ b₁).1, true,
         (handleCacheableGet ttl c sig t₁ b₁).2.2)
    ∧ (∀ (c₀ : List (String × CacheEntry)) (now : Nat),
        cacheGet c₀ sig now = none ↔
          cacheLookup c₀ sig = none
          ∨ ∃ e, cacheLookup c₀ sig = some e ∧ e.expiry < now) := by
  constructor
  · have hexp : ¬ (t₁ + ttl < t₂) := by omega
    have h₁ : handleCacheableGet ttl c sig t₁ b₁ = (b₁, false, cachePut c sig b₁ ttl t₁) := by
      unfold handleCacheableGet
      rw [hmiss]
    have h₂ : cacheGet (cachePut c sig b₁ ttl t₁) sig t₂ = some b₁ := by
      unfold cacheGet cachePut cacheLookup
      simp [hexp]
    rw [h₁]
    unfold handleCacheableGet
    rw [h₂]
  · intro c₀ now
    unfold cacheGet
    cases hl : cacheLookup c₀ sig with
    | none => simp
    | some e =>
      by_cases hexp : e.expiry < now
      · simp [hexp]
      · simp [hexp]

/-- A found item carries the id it was looked up by. -/
theorem findItem_id (l : List Item) (iid : String) (it : Item)
    (h : findItem l iid = some it) : it.id = iid := by
  induction l with
  | nil => exact Option.noConfusion h
  | cons i rest ih =>
    rw [findItem] at h
    by_cases hi : i.id = iid
    · rw [if_pos hi] at h
      cases h
      exact hi
    · rw [if_neg hi] at h
      exact ih h

/-- Inversion of a successful MarketplaceService.createItem: the stored
item carries the given seller id and is prepended to the collection. -/
theorem createItem_ok_shape (data : CreateItemBody) (sid nid : String)
    (σ σ₂ : MarketState) (it : Item)
    (h : MarketplaceService.createItem data sid nid σ = .ok (it, σ₂)) :
    it.sellerId = sid ∧ σ₂.items = it :: σ.items := by
  simp only [MarketplaceService.createItem] at h
  split at h
  · simp only [Except.ok.injEq, Prod.mk.injEq] at h
    obtain ⟨h₁, h₂⟩ := h
    subst h₁
    subst h₂
    exact ⟨rfl, rfl⟩
  · exact Except.noConfusion h

/-- Inversion of a successful DiscourseService.createPost: the stored
post carries the given author id and is prepended to the table. -/
theorem createPost_ok_shape (data : CreatePostBody) (uid : String)
    (σ σ₂ : DiscourseState) (p : Post)
    (h : DiscourseService.createPost data uid σ = .ok (p, σ₂)) :
    p.authorId = uid ∧ σ₂.posts = p :: σ.posts := by
  unfold DiscourseService.createPost at h
  split at h
  · exact Except.noConfusion h
  · split at h
    · exact Except.noConfusion h
    · simp only [Except.ok.injEq, Prod.mk.injEq] at h
      obtain ⟨h₁, h₂⟩ := h
      subst h₁
      subst h₂
      exact ⟨rfl, rfl⟩

/-- Inversion of a successful MarketplaceService.purchaseItem: the sold
item and the completed transaction it records. -/
theorem purchase_ok_shape (iid b : String) (σ σ₂ : MarketState) (t : Txn) (it : Item)
    (h : MarketplaceService.purchaseItem iid b σ = .ok (t, it, σ₂)) :
    t.buyerId = b ∧ t.status = "completed" ∧ t.type = "purchase"
    ∧ t.price = it.price ∧ t.currency = it.currency ∧ t.sellerId = it.sellerId
    ∧ t.itemId = it.id ∧ it.status = "sold" ∧ it.id = iid
    ∧ σ₂.items = replaceItemFirst σ.items iid it
    ∧ σ₂.transactions = t :: σ.transactions := by
  unfold MarketplaceService.purchaseItem at h
  split at h
  · exact Except.noConfusion h
  next itemCheck hfind =>
    split at h
    · exact Except.noConfusion h
    · split at h
      · simp only [Except.ok.injEq, Prod.mk.injEq] at h
        obtain ⟨h₁, h₂, h₃⟩ := h
        subst h₁
        subst h₂
        subst h₃
        refine ⟨rfl, rfl, rfl, rfl, rfl, rfl, rfl, rfl, ?_, rfl, rfl⟩
        exact findItem_id σ.items iid itemCheck hfind
      · exact Except.noConfusion h

/-- Claim C1: every mutating backend operation (marketplace item
creation, marketplace purchase, discourse channel creation, discourse
post creation) answers 401 and stores nothing when the request carries
no truthy x-user-id header; when the header carries a user id, the
created item records it as sellerId, the created channel as createdBy,
the created post as authorId, and the purchase transaction as
buyerId. -/
theorem c1_user_id_header (σm : MarketState) (σd : DiscourseState)
    (ib : CreateItemBody) (pb : PurchaseBody) (cb : CreateChannelBody)
    (qb : CreatePostBody) (newId u : String) :
    (∀ h : Option String, h.getD "" = "" →
      MarketplaceController.createItem h ib newId σm = (⟨401, some "User ID required"⟩, σm)
      ∧ MarketplaceController.purchaseItem h pb σm = (⟨401, some "User ID required"⟩, σm)
      ∧ DiscourseController.createChannel h cb σd = (⟨401, some "User ID required"⟩, σd)
      ∧ DiscourseController.createPost h qb σd = (⟨401, some "User ID required"⟩, σd))
    ∧ ((MarketplaceController.createItem (some u) ib newId σm).1.status = 201 →
      (MarketplaceController.createItem (some u) ib newId σm).2.items.head?.map Item.sellerId
          = some u
      ∧ (MarketplaceController.createItem (some u) ib newId σm).2.items.tail = σm.items)
    ∧ ((DiscourseController.createChannel (some u) cb σd).1.status = 201 →
      (DiscourseController.createChannel (some u) cb σd).2.channels.head?.map Channel.createdBy
          = some u
      ∧ (DiscourseController.createChannel (some u) cb σd).2.channels.tail = σd.channels)
    ∧ ((DiscourseController.createPost (some u) qb σd).1.status = 201 →
      (DiscourseController.createPost (some u) qb σd).2.posts.head?.map Post.authorId = some u
      ∧ (DiscourseController.createPost (some u) qb σd).2.posts.tail = σd.posts)
    ∧ ((MarketplaceController.purchaseItem (some u) pb σm).1.status = 200 →
      (MarketplaceController.purchaseItem (some u) pb σm).2.transactions.head?.map Txn.buyerId
          = some u
      ∧ (MarketplaceController.purchaseItem (some u) pb σm).2.transactions.tail
          = σm.transactions) := by
  refine ⟨fun h hh => ?_, ?_, ?_, ?_, ?_⟩
  · refine ⟨?_, ?_, ?_, ?_⟩
    · simp [MarketplaceController.createItem, hh]
    · simp [MarketplaceController.purchaseItem, hh]
    · simp [DiscourseController.createChannel, hh]
    · simp [DiscourseController.createPost, hh]
  · unfold MarketplaceController.createItem
    split
    · intro habs; simp at habs
    split
    · intro habs; simp at habs
    split
    · intro habs; simp at habs
    split
    · intro habs; simp at habs
    split
    next a σ₂ hsvc =>
      intro _
      obtain ⟨h₁, h₂⟩ := createItem_ok_shape _ _ _ _ _ _ hsvc
      rw [h₂]
      exact ⟨by simp [h₁], rfl⟩
    · intro habs; simp at habs
  · unfold DiscourseController.createChannel
    split
    · intro habs; simp at habs
    split
    · intro habs; simp at habs
    split
    · intro habs; simp at habs
    · intro _
      exact ⟨rfl, rfl⟩
  · unfold DiscourseController.createPost
    split
    · intro habs; simp at habs
    split
    · intro habs; simp at habs
    split
    · intro habs; simp at habs
    split
    next p σ₂ hsvc =>
      intro _
      obtain ⟨h₁, h₂⟩ := createPost_ok_shape _ _ _ _ _ hsvc
      rw [h₂]
      exact ⟨by simp [h₁], rfl⟩
    · intro habs
      split at habs
      · simp at habs
      split at habs
      · simp at habs
      · simp at habs
  · unfold MarketplaceController.purchaseItem
    split
    · intro habs; simp at habs
    split
    · intro habs; simp at habs
    split
    next t it σ₂ hsvc =>
      intro _
      obtain ⟨h₁, _, _, _, _, _, _, _, _, _, h₂⟩ := purchase_ok_shape _ _ _ _ _ _ hsvc
      rw [h₂]
      exact ⟨by simp [h₁], rfl⟩
    · intro habs
      split at habs
      · simp at habs
      split at habs
      · simp at habs
      · simp at habs

/-- Witness for C1: a headerless item creation answers 401 and stores
nothing, and a created item records the header user id as seller. -/
theorem c1_user_id_header_witness :
    MarketplaceController.createItem none
        ⟨some "Test Asset", some "A test item", some "asset", JsNum.num 100, none, none, none⟩
        "id1" ⟨[], []⟩
      = (⟨401, some "User ID required"⟩, ⟨[], []⟩)
    ∧ (MarketplaceController.createItem (some "alice")
        ⟨some "Test Asset", some "A test item", some "asset", JsNum.num 100, none, none, none⟩
        "id1" ⟨[], []⟩).2.items.head?.map Item.sellerId = some "alice" :=
  ⟨((c1_user_id_header ⟨[], []⟩ ⟨[], [], 1, 1⟩
      ⟨some "Test Asset", some "A test item", some "asset", JsNum.num 100, none, none, none⟩
      ⟨some "i1"⟩ ⟨some "Econ", none, some "public", none⟩
      ⟨some 1, some "hello", none, none, none⟩ "id1" "alice").1 none rfl).1,
   ((c1_user_id_header ⟨[], []⟩ ⟨[], [], 1, 1⟩
      ⟨some "Test Asset", some "A test item", some "asset", JsNum.num 100, none, none, none⟩
      ⟨some "i1"⟩ ⟨some "Econ", none, some "public", none⟩
      ⟨some 1, some "hello", none, none, none⟩ "id1" "alice").2.1 (by rfl)).1⟩

/-- Claim C4: a marketplace item-creation request (here one that passed
the preceding authentication check) missing any of name, description,
category or price, or whose category is outside the category enum, or
whose price is not a non-negative number, is rejected with a 400
response and no item is stored. -/
theorem c4_create_item_validation (σ : MarketState) (body : CreateItemBody)
    (u newId : String) (hu : u ≠ "")
    (hbad : body.name.getD "" = "" ∨ body.description.getD "" = ""
      ∨ body.category.getD "" = "" ∨ body.price = JsNum.undef
      ∨ body.category.getD "" ∉ validCategories
      ∨ body.price = JsNum.notNumber
      ∨ (∃ n, body.price = JsNum.num n ∧ n < 0)) :
    (MarketplaceController.createItem (some u) body newId σ).1.status = 400
    ∧ (MarketplaceController.createItem (some u) body newId σ).2 = σ := by
  have key : ∃ msg, MarketplaceController.createItem (some u) body newId σ
      = (⟨400, some msg⟩, σ) := by
    unfold MarketplaceController.createItem
    rw [if_neg (by simpa using hu)]
    by_cases hA : body.name.getD "" = "" ∨ body.description.getD "" = ""
        ∨ body.category.getD "" = "" ∨ body.price = JsNum.undef
    · exact ⟨"Missing required fields: name, description, category, price",
        by rw [if_pos hA]⟩
    · rw [if_neg hA]
      by_cases hB : body.category.getD "" ∉ validCategories
      · exact ⟨"Invalid category. Must be one of: asset, innovation, service, knowledge",
          by rw [if_pos hB]⟩
      · rw [if_neg hB]
        push_neg at hA
        have hC : priceBad body.price = true := by
          rcases hbad with h | h | h | h | h | h | ⟨n, hn, hlt⟩
          · exact absurd h hA.1
          · exact absurd h hA.2.1
          · exact absurd h hA.2.2.1
          · exact absurd h hA.2.2.2
          · exact absurd h hB
          · rw [h]; rfl
          · rw [hn]
            simpa [priceBad] using hlt
        exact ⟨"Price must be a non-negative number", by rw [if_pos hC]⟩
  obtain ⟨msg, hm⟩ := key
  rw [hm]
  exact ⟨rfl, rfl⟩

/-- Witness for C4: a creation request with an invalid category is
rejected with 400 and leaves the store unchanged. -/
theorem c4_create_item_validation_witness :
    (MarketplaceController.createItem (some "alice")
        ⟨some "Gadget", some "desc", some "gadget", JsNum.num 3, none, none, none⟩
        "id2" ⟨[], []⟩).1.status = 400
    ∧ (MarketplaceController.createItem (some "alice")
        ⟨some "Gadget", some "desc", some "gadget", JsNum.num 3, none, none, none⟩
        "id2" ⟨[], []⟩).2 = ⟨[], []⟩ :=
  c4_create_item_validation ⟨[], []⟩
    ⟨some "Gadget", some "desc", some "gadget", JsNum.num 3, none, none, none⟩
    "alice" "id2" (by decide)
    (Or.inr (Or.inr (Or.inr (Or.inr (Or.inl (by decide))))))

/-- Claim C5: for a body-valid authenticated request, createPost fails
with Access denied to private channel (403) exactly when the target
channel exists, has type private, and its createdBy differs from the
posting user; posts to public or sovereign channels are accepted from
any user; and a post to a nonexistent channel fails with Channel not
found (404) with no post created. -/
theorem c5_create_post_access (σ : DiscourseState) (u : String) (body : CreatePostBody)
    (hu : u ≠ "") (hcid : body.channelId.getD 0 ≠ 0) (hcontent : body.content.getD "" ≠ "")
    (htopic : body.topic.getD "" = "" ∨ body.topic.getD "" ∈ validTopics) :
    ((DiscourseController.createPost (some u) body σ).1
        = ⟨403, some "Access denied to private channel"⟩
      ↔ ∃ ch, findChannel σ.channels (body.channelId.getD 0) = some ch
          ∧ ch.type = "private" ∧ ch.createdBy ≠ u)
    ∧ (∀ ch, findChannel σ.channels (body.channelId.getD 0) = some ch →
        (ch.type = "public" ∨ ch.type = "sovereign") →
        (DiscourseController.createPost (some u) body σ).1 = ⟨201, none⟩
        ∧ (DiscourseController.createPost (some u) body σ).2.posts.head?.map Post.authorId
            = some u
        ∧ (DiscourseController.createPost (some u) body σ).2.posts.tail = σ.posts)
    ∧ (findChannel σ.channels (body.channelId.getD 0) = none →
        DiscourseController.createPost (some u) body σ
          = (⟨404, some "Channel not found"⟩, σ)) := by
  have cond1 : ¬ ((some u).getD "" = "") := by simpa using hu
  have cond2 : ¬ (body.channelId.getD 0 = 0 ∨ body.content.getD "" = "") := by
    push_neg
    exact ⟨hcid, hcontent⟩
  have cond3 : ¬ (body.topic.getD "" ≠ "" ∧ body.topic.getD "" ∉ validTopics) := by
    rcases htopic with h | h
    · exact fun hc => hc.1 h
    · exact fun hc => hc.2 h
  have hstep : DiscourseController.createPost (some u) body σ
      = (match DiscourseService.createPost body u σ with
         | .ok (_, σ₂) => (⟨201, none⟩, σ₂)
         | .error msg =>
            if msg = "Channel not found" then (⟨404, some msg⟩, σ)
            else if msg = "Access denied to private channel" then (⟨403, some msg⟩, σ)
            else (⟨500, some "Failed to create post"⟩, σ)) := by
    unfold DiscourseController.createPost
    rw [if_neg cond1, if_neg cond2, if_neg cond3]
    rfl
  rw [hstep]
  cases hch : findChannel σ.channels (body.channelId.getD 0) with
  | none =>
    have hsvc : DiscourseService.createPost body u σ = .error "Channel not found" := by
      unfold DiscourseService.createPost
      rw [hch]
    rw [hsvc]
    refine ⟨by simp, ?_, fun _ => rfl⟩
    intro ch hc
    exact absurd hc (by simp)
  | some ch =>
    by_cases hpriv : ch.type = "private" ∧ ch.createdBy ≠ u
    · have hsvc : DiscourseService.createPost body u σ
          = .error "Access denied to private channel" := by
        unfold DiscourseService.createPost
        simp only [hch]
        rw [if_pos hpriv]
      rw [hsvc]
      refine ⟨⟨fun _ => ⟨ch, rfl, hpriv.1, hpriv.2⟩, fun _ => by rfl⟩, ?_, ?_⟩
      · intro ch₂ hc₂ hty
        cases hc₂
        rcases hty with h | h
        · rw [h] at hpriv
          exact absurd hpriv.1 (by decide)
        · rw [h] at hpriv
          exact absurd hpriv.1 (by decide)
      · intro habs
        exact Option.noConfusion habs
    · have hsvc : DiscourseService.createPost body u σ
          = .ok ({ id := σ.nextPostId, channelId := body.channelId.getD 0, authorId := u,
                   title := body.title, content := body.content.getD "",
                   topic := jsStrOr body.topic "general",
                   isPinned := body.isPinned.getD false },
                 { σ with
                   posts := { id := σ.nextPostId, channelId := body.channelId.getD 0,
                              authorId := u, title := body.title,
                              content := body.content.getD "",
                              topic := jsStrOr body.topic "general",
                              isPinned := body.isPinned.getD false } :: σ.posts,
                   nextPostId := σ.nextPostId + 1 }) := by
        unfold DiscourseService.createPost
        simp only [hch]
        rw [if_neg hpriv]
      rw [hsvc]
      refine ⟨⟨fun habs => ?_, fun hex => ?_⟩, ?_, ?_⟩
      · exact absurd habs (by simp)
      · obtain ⟨ch₂, hc₂, hty, hcb⟩ := hex
        cases hc₂
        exact absurd ⟨hty, hcb⟩ hpriv
      · intro ch₂ hc₂ _
        exact ⟨rfl, rfl, rfl⟩
      · intro habs
        exact Option.noConfusion habs

/-- Witness for C5: a private channel of alice rejects a post by bob
with 403, and a public channel accepts it. -/
theorem c5_create_post_access_witness :
    (DiscourseController.createPost (some "bob")
        ⟨some 1, some "hello", none, none, none⟩
        ⟨[⟨1, "c", none, "private", none, "alice"⟩], [], 2, 1⟩).1
      = ⟨403, some "Access denied to private channel"⟩
    ∧ (DiscourseController.createPost (some "bob")
        ⟨some 1, some "hello", none, none, none⟩
        ⟨[⟨1, "c", none, "public", none, "alice"⟩], [], 2, 1⟩).1 = ⟨201, none⟩ :=
  ⟨(c5_create_post_access ⟨[⟨1, "c", none, "private", none, "alice"⟩], [], 2, 1⟩ "bob"
      ⟨some 1, some "hello", none, none, none⟩ (by decide) (by decide) (by decide)
      (Or.inl rfl)).1.mpr
      ⟨⟨1, "c", none, "private", none, "alice"⟩, rfl, rfl, by decide⟩,
   ((c5_create_post_access ⟨[⟨1, "c", none, "public", none, "alice"⟩], [], 2, 1⟩ "bob"
      ⟨some 1, some "hello", none, none, none⟩ (by decide) (by decide) (by decide)
      (Or.inl rfl)).2.1 ⟨1, "c", none, "public", none, "alice"⟩ rfl (Or.inl rfl)).1⟩

/-- Looking up the id just replaced finds the replacement (when the
replacement carries that id). -/
theorem findItem_replaceFirst_found (l : List Item) (iid : String) (it it₂ : Item)
    (hid : it.id = iid) (h : findItem (replaceItemFirst l iid it) iid = some it₂) :
    it₂ = it := by
  induction l with
  | nil => exact Option.noConfusion h
  | cons i rest ih =>
    rw [replaceItemFirst] at h
    by_cases hi : i.id = iid
    · rw [if_pos hi, findItem, if_pos hid] at h
      cases h
      rfl
    · rw [if_neg hi, findItem, if_neg hi] at h
      exact ih h

/-- Replacing a document of one id leaves lookups of another id
unchanged. -/
theorem findItem_replaceFirst_other (l : List Item) (iid iid₂ : String) (it : Item)
    (hne : iid₂ ≠ iid) (hit : it.id = iid₂) :
    findItem (replaceItemFirst l iid₂ it) iid = findItem l iid := by
  induction l with
  | nil => rfl
  | cons i rest ih =>
    rw [replaceItemFirst]
    by_cases hi : i.id = iid₂
    · rw [if_pos hi, findItem, findItem,
        if_neg (fun hc => hne (hit ▸ hc)), if_neg (fun hc => hne (hi ▸ hc))]
    · rw [if_neg hi, findItem, findItem]
      by_cases h2 : i.id = iid
      · rw [if_pos h2, if_pos h2]
      · rw [if_neg h2, if_neg h2]
        exact ih

/-- A non-purchasable item admits no successful purchase. -/
theorem notBuyable_no_ok (σ : MarketState) (iid : String)
    (hnb : itemNotBuyable σ iid) (b : String) (r : Txn × Item × MarketState) :
    MarketplaceService.purchaseItem iid b σ ≠ .ok r := by
  intro h
  unfold MarketplaceService.purchaseItem at h
  split at h
  · exact Except.noConfusion h
  next itemCheck hfind =>
    split at h
    · exact Except.noConfusion h
    · split at h
      next hav => exact hnb itemCheck hfind hav
      · exact Except.noConfusion h

/-- After a successful purchase the item is no longer purchasable. -/
theorem purchase_ok_notBuyable (iid b : String) (σ σ₂ : MarketState) (t : Txn) (it : Item)
    (h : MarketplaceService.purchaseItem iid b σ = .ok (t, it, σ₂)) :
    itemNotBuyable σ₂ iid := by
  obtain ⟨_, _, _, _, _, _, _, hsold, hid, hitems, _⟩ := purchase_ok_shape iid b σ σ₂ t it h
  intro it₂ hfind
  rw [hitems] at hfind
  rw [findItem_replaceFirst_found σ.items iid it it₂ hid hfind, hsold]
  decide

/-- A successful purchase of any item keeps every non-purchasable item
non-purchasable. -/
theorem purchase_preserves_notBuyable (iid iid₂ b : String) (σ σ₂ : MarketState)
    (t : Txn) (it : Item) (hnb : itemNotBuyable σ iid)
    (h : MarketplaceService.purchaseItem iid₂ b σ = .ok (t, it, σ₂)) :
    itemNotBuyable σ₂ iid := by
  by_cases he : iid₂ = iid
  · subst he
    exact purchase_ok_notBuyable iid₂ b σ σ₂ t it h
  · obtain ⟨_, _, _, _, _, _, _, _, hid, hitems, _⟩ := purchase_ok_shape iid₂ b σ σ₂ t it h
    intro it₂ hfind
    rw [hitems, findItem_replaceFirst_other σ.items iid iid₂ it he hid] at hfind
    exact hnb it₂ hfind

/-- No purchase attempt on a non-purchasable item ever succeeds. -/
theorem notBuyable_count_zero (iid : String) :
    ∀ (attempts : List (String × String)) (σ : MarketState),
      itemNotBuyable σ iid → countSuccesses iid attempts σ = 0 := by
  intro attempts
  induction attempts with
  | nil => intro σ _; rfl
  | cons a rest ih =>
    intro σ hnb
    cases hp : MarketplaceService.purchaseItem a.1 a.2 σ with
    | ok r =>
      obtain ⟨t, it, σ₂⟩ := r
      simp only [countSuccesses, hp]
      have hne : a.1 ≠ iid := by
        intro hcontra
        subst hcontra
        exact notBuyable_no_ok σ a.1 hnb a.2 (t, it, σ₂) hp
      rw [if_neg hne, ih σ₂ (purchase_preserves_notBuyable iid a.1 a.2 σ σ₂ t it hnb hp)]
    | error msg =>
      simp only [countSuccesses, hp]
      exact ih σ hnb

/-- Over any serialized sequence of purchase attempts, at most one
purchase of a given item id succeeds. -/
theorem count_le_one (iid : String) :
    ∀ (attempts : List (String × String)) (σ : MarketState),
      countSuccesses iid attempts σ ≤ 1 := by
  intro attempts
  induction attempts with
  | nil => intro σ; exact Nat.zero_le 1
  | cons a rest ih =>
    intro σ
    cases hp : MarketplaceService.purchaseItem a.1 a.2 σ with
    | ok r =>
      obtain ⟨t, it, σ₂⟩ := r
      simp only [countSuccesses, hp]
      by_cases he : a.1 = iid
      · rw [if_pos he]
        subst he
        rw [notBuyable_count_zero a.1 rest σ₂ (purchase_ok_notBuyable a.1 a.2 σ σ₂ t it hp)]
      · rw [if_neg he]
        simpa using ih σ₂
    | error msg =>
      simp only [countSuccesses, hp]
      exact ih σ

/-- Claim C2 counterexample: a purchase attempt on an item whose status
is not available fails with the message Item is not available for
purchase (already sold), which differs from the message the claim
states. -/
theorem c2_unavailable_message_cex :
    MarketplaceService.purchaseItem "i1" "bob"
        ⟨[⟨"i1", "n", "d", "asset", 5, "USD", "alice", "sold", false, []⟩], []⟩
      = .error "Item is not available for purchase (already sold)"
    ∧ ("Item is not available for purchase (already sold)"
        ≠ "Item is not available for purchase") :=
  ⟨rfl, by decide⟩

/-- Claim C2 (amended): purchaseItem succeeds only if the item status is
available at the single atomic update, flipping it to sold and
recording a completed transaction carrying the item price, currency
and sellerId; on a non-available item it fails with the message Item
is not available for purchase (already sold) and the stores are left
unchanged; and at most one purchase per item ever succeeds along any
serialized sequence of attempts. -/
theorem c2_purchase_atomicity (σ : MarketState) (iid buyer : String) :
    (∀ it, findItem σ.items iid = some it → it.sellerId ≠ buyer →
      it.status = "available" →
      MarketplaceService.purchaseItem iid buyer σ
        = .ok ({ itemId := it.id, buyerId := buyer, sellerId := it.sellerId,
                 price := it.price, currency := it.currency,
                 type := "purchase", status := "completed" },
               { it with status := "sold" },
               { items := replaceItemFirst σ.items iid { it with status := "sold" },
                 transactions :=
                   { itemId := it.id, buyerId := buyer, sellerId := it.sellerId,
                     price := it.price, currency := it.currency,
                     type := "purchase", status := "completed" } :: σ.transactions }))
    ∧ (∀ it, findItem σ.items iid = some it → it.sellerId ≠ buyer →
      it.status ≠ "available" →
      MarketplaceService.purchaseItem iid buyer σ
        = .error "Item is not available for purchase (already sold)"
      ∧ (buyer ≠ "" → iid ≠ "" →
          (MarketplaceController.purchaseItem (some buyer) ⟨some iid⟩ σ).2 = σ))
    ∧ (∀ (attempts : List (String × String)) (σ₀ : MarketState),
        countSuccesses iid attempts σ₀ ≤ 1) := by
  refine ⟨fun it hfind hsell hav => ?_, fun it hfind hsell hav => ?_,
    fun attempts σ₀ => count_le_one iid attempts σ₀⟩
  · unfold MarketplaceService.purchaseItem
    simp only [hfind]
    rw [if_neg hsell, if_pos hav]
  · have hsvc : MarketplaceService.purchaseItem iid buyer σ
        = .error "Item is not available for purchase (already sold)" := by
      unfold MarketplaceService.purchaseItem
      simp only [hfind]
      rw [if_neg hsell, if_neg hav]
    refine ⟨hsvc, fun hb hi => ?_⟩
    have hsvc₂ : MarketplaceService.purchaseItem
        ((PurchaseBody.mk (some iid)).itemId.getD "") ((some buyer).getD "") σ
        = .error "Item is not available for purchase (already sold)" := hsvc
    unfold MarketplaceController.purchaseItem
    rw [if_neg (by simpa using hb), if_neg (by simpa using hi), hsvc₂]
    rfl

/-- Witness for C2: a successful purchase of an available item by bob,
and at most one success across two serialized attempts on the same
item. -/
theorem c2_purchase_atomicity_witness :
    MarketplaceService.purchaseItem "i1" "bob"
        ⟨[⟨"i1", "n", "d", "asset", 5, "USD", "alice", "available", false, []⟩], []⟩
      = .ok (⟨"i1", "bob", "alice", 5, "USD", "purchase", "completed"⟩,
             ⟨"i1", "n", "d", "asset", 5, "USD", "alice", "sold", false, []⟩,
             ⟨[⟨"i1", "n", "d", "asset", 5, "USD", "alice", "sold", false, []⟩],
              [⟨"i1", "bob", "alice", 5, "USD", "purchase", "completed"⟩]⟩)
    ∧ countSuccesses "i1" [("i1", "bob"), ("i1", "carol")]
        ⟨[⟨"i1", "n", "d", "asset", 5, "USD", "alice", "available", false, []⟩], []⟩ ≤ 1 :=
  ⟨(c2_purchase_atomicity
      ⟨[⟨"i1", "n", "d", "asset", 5, "USD", "alice", "available", false, []⟩], []⟩
      "i1" "bob").1 ⟨"i1", "n", "d", "asset", 5, "USD", "alice", "available", false, []⟩
      rfl (by decide) rfl,
   (c2_purchase_atomicity
      ⟨[⟨"i1", "n", "d", "asset", 5, "USD", "alice", "available", false, []⟩], []⟩
      "i1" "bob").2.2 [("i1", "bob"), ("i1", "carol")]
      ⟨[⟨"i1", "n", "d", "asset", 5, "USD", "alice", "available", false, []⟩], []⟩⟩

/-- Witness for C9: a concrete miss-then-hit pair inside the TTL
window returns the first body from the cache. -/
theorem c9_cache_idempotent_witness :
    handleCacheableGet 60
        (handleCacheableGet 60 [] "GET /marketplace/list" 100 "body1").2.2
        "GET /marketplace/list" 130 "body2"
      = ("body1", true, [("GET /marketplace/list", ⟨"body1", 160⟩)]) :=
  (c9_cache_idempotent 60 [] "GET /marketplace/list" 100 130 "body1" "body2"
    rfl (by decide)).1
